import Mathlib

/-!
Shallow embedding of the dget/mls-api data model and its derived computations.

Sources:
- src/mls_api/models.py: the Django entity declarations (Team, Player, GamePlayer,
  Competition, StatSet, Formation, FormationLine, FormationPlayer, Game, Substitution,
  Goal, Booking) together with the two derived computations the repository contains:
  Game._retrieve_goal_count / Game.home_score / Game.away_score and
  Formation.formation_str.
- src/mls_api/migrations/0008_...: the South schema migration that retargets the
  Substitution.in_player / Substitution.out_player foreign keys between Player and
  GamePlayer, plus its full schema snapshot.

Primary keys and foreign keys are modelled as Nat identifiers.  A foreign key that the
modelled code dereferences (Goal.player, whose .team the score query joins through) is
embedded as the referenced row itself.  DateTimeField values are modelled as Int
(null=True fields as Option Int), CharField/SlugField as String, DecimalField as Rat.
-/

/-- models.py:12-19.  Abstract base carrying the two automatic timestamp fields
(created = DateTimeField(auto_now_add=True), modified = DateTimeField(auto_now=True)). -/
structure BaseModel where
  created : Int
  modified : Int
deriving DecidableEq, Repr

/-- models.py:22-36.  Soccer teams.  slug is declared unique=True. -/
structure Team where
  id : Nat
  name : String
  slug : String
  created : Int
  modified : Int
deriving DecidableEq, Repr

/-- models.py:39-59.  Soccer players.  position is one of the POSITIONS choice strings. -/
structure Player where
  id : Nat
  first_name : String
  last_name : String
  number : Int
  team : Nat
  position : String
  created : Int
  modified : Int
deriving DecidableEq, Repr

/-- models.py:82-93.  Join row mapping a player to a specific game. -/
structure GamePlayer where
  id : Nat
  player : Nat
  position : String
  game : Nat
  captain : Bool
  team : Nat
  created : Int
  modified : Int
deriving DecidableEq, Repr

/-- models.py:96-108.  Competitions.  slug is declared unique=True. -/
structure Competition where
  id : Nat
  name : String
  slug : String
  year : String
  created : Int
  modified : Int
deriving DecidableEq, Repr

/-- models.py:111-136.  Per-team, per-game aggregate statistics.  The class declares
no Meta options and no unique constraint of any kind: only plain value columns and
the two foreign keys team and game. -/
structure StatSet where
  id : Nat
  attempts_on_goal : Int
  shots_on_target : Int
  shots_off_target : Int
  blocked_shots : Int
  corner_kicks : Int
  fouls : Int
  crosses : Int
  offsides : Int
  first_yellows : Int
  second_yellows : Int
  red_cards : Int
  duels_won : Int
  duels_won_percentage : Int
  total_passes : Int
  pass_percentage : Int
  possession : Rat
  team : Nat
  game : Nat
  created : Int
  modified : Int
deriving DecidableEq, Repr

/-- models.py:139-149.  M2M through row recording a GamePlayer's slot in a
FormationLine; Meta.ordering = (sort_order,). -/
structure FormationPlayer where
  id : Nat
  player : Nat
  line : Nat
  sort_order : Int
  created : Int
  modified : Int
deriving DecidableEq, Repr

/-- models.py:152-160.  One line in a formation; Meta.ordering = (sort_order,). -/
structure FormationLine where
  id : Nat
  formation : Nat
  sort_order : Int
  created : Int
  modified : Int
deriving DecidableEq, Repr

/-- models.py:163-180.  A team's tactical shape for one game. -/
structure Formation where
  id : Nat
  team : Nat
  game : Nat
  created : Int
  modified : Int
deriving DecidableEq, Repr

/-- models.py:183-221.  The Game record.  models.py:188-189 assign IntegerField
objects to the class attributes home_score and away_score, but the @property
definitions at models.py:212-218 re-bind the same two attribute names later in the
same class body, so the fields never reach the ORM metaclass and no score column
exists (confirmed by the migration 0008 snapshot of mls_api.game, which lists no
home_score or away_score column).  The two shadowed attributes are kept here as
phantom fields home_score_column / away_score_column so that theorems can state
that reads never consult them. -/
structure Game where
  id : Nat
  home_team : Nat
  away_team : Nat
  start_time : Option Int
  home_score_column : Option Int
  away_score_column : Option Int
  competition : Nat
  stat_link : String
  created : Int
  modified : Int
deriving DecidableEq, Repr

/-- models.py:239-253.  A goal event.  The scorer foreign key is embedded as the
referenced GamePlayer row because the score query joins through player__team. -/
structure Goal where
  id : Nat
  game : Nat
  minute : Int
  player : GamePlayer
  penalty : Bool
  own_goal : Bool
  assisted_by : List Nat
  created : Int
  modified : Int
deriving DecidableEq, Repr

/-- models.py:202-205 and 239-253: self.goal_set is the reverse foreign-key manager,
i.e. all Goal rows whose game foreign key is this game. -/
def Game.goal_set (g : Game) (goals : List Goal) : List Goal :=
  goals.filter (fun gl => gl.game == g.id)

/-- models.py:202-210, Game._retrieve_goal_count(team): own_goals is the count of the
game's goals with own_goal=True excluding player__team=team; goals is the count of the
game's goals with player__team=team and own_goal=False; the result is their sum. -/
def Game.retrieve_goal_count (g : Game) (goals : List Goal) (team : Nat) : Nat :=
  let own_goals :=
    ((g.goal_set goals).filter (fun gl => gl.own_goal && !(gl.player.team == team))).length
  let non_own_goals :=
    ((g.goal_set goals).filter (fun gl => gl.player.team == team && !gl.own_goal)).length
  own_goals + non_own_goals

/-- models.py:212-214, the home_score property: recompute from the goal set for the
home team on every read. -/
def Game.home_score (g : Game) (goals : List Goal) : Nat :=
  g.retrieve_goal_count goals g.home_team

/-- models.py:216-218, the away_score property: recompute from the goal set for the
away team on every read. -/
def Game.away_score (g : Game) (goals : List Goal) : Nat :=
  g.retrieve_goal_count goals g.away_team

/-- Insert an element into a list sorted by the boolean relation le, keeping existing
order among ties (stable, as a relational ORDER BY is on equal keys). -/
def insertOrdered {α : Type} (le : α → α → Bool) (a : α) : List α → List α
  | [] => [a]
  | b :: bs => if le a b then a :: b :: bs else b :: insertOrdered le a bs

/-- Stable insertion sort by the boolean relation le; models the ordering an ORDER BY
clause imposes on a result set. -/
def sortBy {α : Type} (le : α → α → Bool) : List α → List α
  | [] => []
  | a :: as => insertOrdered le a (sortBy le as)

/-- models.py:152-160 and 172: self.formationline_set.all() returns the FormationLine
rows whose formation foreign key is this formation, ordered by the declared
Meta.ordering = (sort_order,). -/
def Formation.formationline_set (f : Formation) (lines : List FormationLine) :
    List FormationLine :=
  sortBy (fun a b => decide (a.sort_order ≤ b.sort_order))
    (lines.filter (fun l => l.formation == f.id))

/-- models.py:155 and 172: x.players.count() counts the FormationPlayer through-rows
attached to the line x. -/
def FormationLine.players_count (l : FormationLine) (fps : List FormationPlayer) : Nat :=
  (fps.filter (fun fp => fp.line == l.id)).length

/-- models.py:169-173, the formation_str property:
join with dashes the per-line player counts, as strings, of all formation lines,
dropping the first entry of that list. -/
def Formation.formation_str (f : Formation) (lines : List FormationLine)
    (fps : List FormationPlayer) : String :=
  String.intercalate "-"
    (((f.formationline_set lines).map (fun x => toString (x.players_count fps))).drop 1)

/-- The two possible foreign-key targets of the Substitution in/out player columns in
migration 0008: mls_api.Player or mls_api.GamePlayer. -/
inductive FKTarget where
  | player
  | gamePlayer
deriving DecidableEq, Repr

/-- One row of the mls_api_substitution table (migration 0008 snapshot,
mls_api.substitution): id, in_player_id, out_player_id, team_id, minute, created,
modified.  db.alter_column changes a column's type, never row contents, so rows are
plain data unaffected by the migration steps. -/
structure SubstitutionRow where
  id : Nat
  out_player : Nat
  in_player : Nat
  team : Nat
  minute : Int
  created : Int
  modified : Int
deriving DecidableEq, Repr

/-- The mls_api_substitution table: the current foreign-key target of each of the two
player columns, plus the stored rows. -/
structure SubstitutionTable where
  out_player_target : FKTarget
  in_player_target : FKTarget
  rows : List SubstitutionRow
deriving DecidableEq, Repr

/-- db.alter_column on out_player_id: retarget the foreign key, keep the rows. -/
def alterOutPlayerColumn (t : SubstitutionTable) (target : FKTarget) : SubstitutionTable :=
  { t with out_player_target := target }

/-- db.alter_column on in_player_id: retarget the foreign key, keep the rows. -/
def alterInPlayerColumn (t : SubstitutionTable) (target : FKTarget) : SubstitutionTable :=
  { t with in_player_target := target }

/-- Migration 0008 forwards (lines 10-16): alter out_player_id to mls_api.GamePlayer,
then alter in_player_id to mls_api.GamePlayer. -/
def Migration.forwards (t : SubstitutionTable) : SubstitutionTable :=
  alterInPlayerColumn (alterOutPlayerColumn t FKTarget.gamePlayer) FKTarget.gamePlayer

/-- Migration 0008 backwards (lines 18-24): alter out_player_id to mls_api.Player,
then alter in_player_id to mls_api.Player. -/
def Migration.backwards (t : SubstitutionTable) : SubstitutionTable :=
  alterInPlayerColumn (alterOutPlayerColumn t FKTarget.player) FKTarget.player

/-- Modelled from the spec: the relational store enforces the unique=True constraint
declared on Team.slug (models.py:26); an insert whose slug collides with an existing
row surfaces a store-level uniqueness error (spec sections 3, 6, 7) and stores
nothing, otherwise the row is appended. -/
def insertTeam (db : List Team) (t : Team) : Option (List Team) :=
  if db.any (fun u => u.slug == t.slug) then none else some (db ++ [t])

/-- Modelled from the spec: the relational store enforces the unique=True constraint
declared on Competition.slug (models.py:100); an insert whose slug collides with an
existing row surfaces a store-level uniqueness error (spec sections 3, 6, 7) and
stores nothing, otherwise the row is appended. -/
def insertCompetition (db : List Competition) (c : Competition) :
    Option (List Competition) :=
  if db.any (fun u => u.slug == c.slug) then none else some (db ++ [c])

/-- Modelled from the spec: the store enforces only declared constraints, and StatSet
(models.py:111-133) declares none beyond its plain columns and foreign keys — the
spec lists unique constraints only on slug fields (section 6) — so inserting a
StatSet row always succeeds and appends it. -/
def insertStatSet (db : List StatSet) (s : StatSet) : Option (List StatSet) :=
  some (db ++ [s])

/-- The StatSet rows of a database that belong to the given game and team. -/
def statSetsFor (db : List StatSet) (gameId teamId : Nat) : List StatSet :=
  db.filter (fun s => s.game == gameId && s.team == teamId)

/-- At most one StatSet per (game, team) pair: no two distinct positions in the list
hold rows with the same game and the same team. -/
def atMostOnePerTeamPerGame (db : List StatSet) : Prop :=
  db.Pairwise (fun a b => ¬(a.game = b.game ∧ a.team = b.team))

/-- Modelled from the spec: DateTimeField(auto_now_add=True, auto_now=True)
(models.py:15-16) — the ORM sets created and modified to the current time at initial
insert; neither is client-writable (spec section 3). -/
def BaseModel.insert (now : Int) : BaseModel :=
  { created := now, modified := now }

/-- Modelled from the spec: DateTimeField(auto_now=True) (models.py:16) — every save
resets modified to the current time and leaves created untouched; neither field is
client-writable (spec section 3: modified updates on every save). -/
def BaseModel.save (e : BaseModel) (now : Int) : BaseModel :=
  { e with modified := now }

/-- A sequence of successive updates, each stamped with the clock value at which it
was saved. -/
def BaseModel.saveAll (e : BaseModel) (times : List Int) : BaseModel :=
  times.foldl BaseModel.save e

/-- Modelled from the spec: listing Teams returns the rows ordered by the declared
Meta.ordering = (name,) (models.py:35-36), i.e. alphabetically by name. -/
def listTeams (db : List Team) : List Team :=
  sortBy (fun a b => decide (a.name ≤ b.name)) db

/-- Lexicographic last-name-then-first-name order on players, as the declared
Meta.ordering = (last_name, first_name) imposes. -/
def playerOrd (a b : Player) : Prop :=
  a.last_name < b.last_name ∨ (a.last_name = b.last_name ∧ a.first_name ≤ b.first_name)

instance : DecidableRel playerOrd := fun a b => by
  unfold playerOrd
  infer_instance

/-- Modelled from the spec: listing Players returns the rows ordered by the declared
Meta.ordering = (last_name, first_name) (models.py:58-59). -/
def listPlayers (db : List Player) : List Player :=
  sortBy (fun a b => decide (playerOrd a b)) db

/-- Comparison of nullable start times (start_time has null=True); a null start time
is treated as smaller than every concrete one, so under the descending ordering null
rows come last. -/
def startTimeLe : Option Int → Option Int → Bool
  | none, _ => true
  | some _, none => false
  | some a, some b => decide (a ≤ b)

/-- Descending start-time order on games, as the declared
Meta.ordering = (-start_time,) imposes: a game comes no later than another when its
start time is no smaller. -/
def gameOrd (a b : Game) : Bool :=
  startTimeLe b.start_time a.start_time

/-- Modelled from the spec: listing Games returns the rows ordered by the declared
Meta.ordering = (-start_time,) (models.py:220-221), i.e. by descending start time. -/
def listGames (db : List Game) : List Game :=
  sortBy gameOrd db

/- Concrete rows used by closed witnesses and counterexamples. -/

/-- A concrete GamePlayer on team 1 in game 1. -/
def exGP1 : GamePlayer :=
  { id := 1, player := 1, position := "F", game := 1, captain := false, team := 1,
    created := 0, modified := 0 }

/-- A concrete GamePlayer on team 3 (neither home nor away of exGame) in game 1. -/
def exGP3 : GamePlayer :=
  { id := 3, player := 3, position := "D", game := 1, captain := false, team := 3,
    created := 0, modified := 0 }

/-- A concrete game between home team 1 and away team 2. -/
def exGame : Game :=
  { id := 1, home_team := 1, away_team := 2, start_time := some 100,
    home_score_column := none, away_score_column := none, competition := 1,
    stat_link := "", created := 0, modified := 0 }

/-- One own goal scored in game 1 by a player whose team is team 3, neither the home
team nor the away team of exGame. -/
def exNeutralOwnGoal : Goal :=
  { id := 1, game := 1, minute := 10, player := exGP3, penalty := false,
    own_goal := true, assisted_by := [], created := 0, modified := 0 }

/-- A goal log holding exactly the one neutral own goal. -/
def exGoals : List Goal := [exNeutralOwnGoal]

/-- A concrete formation for team 1 in game 1. -/
def exFormation : Formation :=
  { id := 10, team := 1, game := 1, created := 0, modified := 0 }

/-- Four formation lines of exFormation with sort orders 0, 1, 2, 3; the first is the
goalkeeper line. -/
def exLines : List FormationLine :=
  [ { id := 20, formation := 10, sort_order := 0, created := 0, modified := 0 },
    { id := 21, formation := 10, sort_order := 1, created := 0, modified := 0 },
    { id := 22, formation := 10, sort_order := 2, created := 0, modified := 0 },
    { id := 23, formation := 10, sort_order := 3, created := 0, modified := 0 } ]

/-- Formation players giving the four lines of exLines sizes 1, 4, 3, 3. -/
def exFPs : List FormationPlayer :=
  [ { id := 30, player := 1, line := 20, sort_order := 0, created := 0, modified := 0 },
    { id := 31, player := 2, line := 21, sort_order := 0, created := 0, modified := 0 },
    { id := 32, player := 3, line := 21, sort_order := 1, created := 0, modified := 0 },
    { id := 33, player := 4, line := 21, sort_order := 2, created := 0, modified := 0 },
    { id := 34, player := 5, line := 21, sort_order := 3, created := 0, modified := 0 },
    { id := 35, player := 6, line := 22, sort_order := 0, created := 0, modified := 0 },
    { id := 36, player := 7, line := 22, sort_order := 1, created := 0, modified := 0 },
    { id := 37, player := 8, line := 22, sort_order := 2, created := 0, modified := 0 },
    { id := 38, player := 9, line := 23, sort_order := 0, created := 0, modified := 0 },
    { id := 39, player := 10, line := 23, sort_order := 1, created := 0, modified := 0 },
    { id := 40, player := 11, line := 23, sort_order := 2, created := 0, modified := 0 } ]

/-- A single formation line belonging to exFormation, for the short-formation case. -/
def exOneLine : List FormationLine :=
  [ { id := 20, formation := 10, sort_order := 0, created := 0, modified := 0 } ]

/-- Two concrete teams sharing the slug value so that the second insert collides. -/
def exTeamA : Team :=
  { id := 1, name := "Portland Timbers", slug := "portland-timbers",
    created := 0, modified := 0 }

/-- A second team with a different name but the same slug as exTeamA. -/
def exTeamB : Team :=
  { id := 2, name := "Timbers FC", slug := "portland-timbers",
    created := 0, modified := 0 }

/-- A concrete competition. -/
def exCompA : Competition :=
  { id := 1, name := "MLS Cup", slug := "mls-cup", year := "2013",
    created := 0, modified := 0 }

/-- A second competition with the same slug as exCompA. -/
def exCompB : Competition :=
  { id := 2, name := "MLS Cup Playoffs", slug := "mls-cup", year := "2014",
    created := 0, modified := 0 }

/-- A concrete StatSet for game 1 and team 1. -/
def exStat1 : StatSet :=
  { id := 1, attempts_on_goal := 10, shots_on_target := 4, shots_off_target := 6,
    blocked_shots := 2, corner_kicks := 5, fouls := 12, crosses := 20, offsides := 3,
    first_yellows := 1, second_yellows := 0, red_cards := 0, duels_won := 30,
    duels_won_percentage := 55, total_passes := 400, pass_percentage := 80,
    possession := (55 : Rat) / 100, team := 1, game := 1, created := 0, modified := 0 }

/-- A second, distinct StatSet for the same game 1 and the same team 1. -/
def exStat2 : StatSet :=
  { id := 2, attempts_on_goal := 11, shots_on_target := 5, shots_off_target := 6,
    blocked_shots := 2, corner_kicks := 5, fouls := 12, crosses := 20, offsides := 3,
    first_yellows := 1, second_yellows := 0, red_cards := 0, duels_won := 30,
    duels_won_percentage := 55, total_passes := 400, pass_percentage := 80,
    possession := (55 : Rat) / 100, team := 1, game := 1, created := 0, modified := 0 }

/-! ## Generic facts about the insertion sort used to model ORDER BY -/

/-- Every member of the result of an ordered insert is the inserted element or a
member of the original list. -/
theorem mem_insertOrdered {α : Type} (le : α → α → Bool) (a c : α) (l : List α)
    (h : c ∈ insertOrdered le a l) : c = a ∨ c ∈ l := by
  induction l with
  | nil =>
    simp only [insertOrdered, List.mem_singleton] at h
    exact Or.inl h
  | cons b bs ih =>
    simp only [insertOrdered] at h
    by_cases hab : le a b = true
    · rw [if_pos hab] at h
      rcases List.mem_cons.mp h with rfl | h
      · exact Or.inl rfl
      · exact Or.inr h
    · rw [if_neg hab] at h
      rcases List.mem_cons.mp h with rfl | h
      · exact Or.inr (List.mem_cons_self _ _)
      · rcases ih h with rfl | h
        · exact Or.inl rfl
        · exact Or.inr (List.mem_cons_of_mem _ h)

/-- Inserting into a list that is pairwise ordered by a total transitive boolean
relation keeps it pairwise ordered. -/
theorem pairwise_insertOrdered {α : Type} (le : α → α → Bool)
    (total : ∀ a b, le a b = true ∨ le b a = true)
    (htrans : ∀ a b c, le a b = true → le b c = true → le a c = true)
    (a : α) (l : List α) (h : l.Pairwise (fun x y => le x y = true)) :
    (insertOrdered le a l).Pairwise (fun x y => le x y = true) := by
  induction l with
  | nil => simp [insertOrdered]
  | cons b bs ih =>
    rcases List.pairwise_cons.mp h with ⟨hb, hbs⟩
    simp only [insertOrdered]
    by_cases hab : le a b = true
    · rw [if_pos hab]
      refine List.Pairwise.cons ?_ h
      intro y hy
      rcases List.mem_cons.mp hy with rfl | hy
      · exact hab
      · exact htrans a b y hab (hb y hy)
    · rw [if_neg hab]
      have hba : le b a = true := (total a b).resolve_left hab
      refine List.Pairwise.cons ?_ (ih hbs)
      intro y hy
      rcases mem_insertOrdered le a y bs hy with rfl | hy
      · exact hba
      · exact hb y hy

/-- The insertion sort by a total transitive boolean relation produces a pairwise
ordered list. -/
theorem pairwise_sortBy {α : Type} (le : α → α → Bool)
    (total : ∀ a b, le a b = true ∨ le b a = true)
    (htrans : ∀ a b c, le a b = true → le b c = true → le a c = true)
    (l : List α) : (sortBy le l).Pairwise (fun x y => le x y = true) := by
  induction l with
  | nil => simp [sortBy]
  | cons a as ih => exact pairwise_insertOrdered le total htrans a (sortBy le as) ih

/-! ## Totality and transitivity of the three declared orderings -/

/-- The by-name comparison of teams is total. -/
theorem teamOrd_total (a b : Team) :
    decide (a.name ≤ b.name) = true ∨ decide (b.name ≤ a.name) = true := by
  rcases le_total a.name b.name with h | h
  · exact Or.inl (decide_eq_true h)
  · exact Or.inr (decide_eq_true h)

/-- The by-name comparison of teams is transitive. -/
theorem teamOrd_trans (a b c : Team)
    (hab : decide (a.name ≤ b.name) = true) (hbc : decide (b.name ≤ c.name) = true) :
    decide (a.name ≤ c.name) = true :=
  decide_eq_true (le_trans (of_decide_eq_true hab) (of_decide_eq_true hbc))

/-- The last-name-then-first-name comparison of players is total. -/
theorem playerOrd_total (a b : Player) :
    decide (playerOrd a b) = true ∨ decide (playerOrd b a) = true := by
  rcases lt_trichotomy a.last_name b.last_name with h | h | h
  · exact Or.inl (decide_eq_true (Or.inl h))
  · rcases le_total a.first_name b.first_name with hf | hf
    · exact Or.inl (decide_eq_true (Or.inr ⟨h, hf⟩))
    · exact Or.inr (decide_eq_true (Or.inr ⟨h.symm, hf⟩))
  · exact Or.inr (decide_eq_true (Or.inl h))

/-- The last-name-then-first-name comparison of players is transitive. -/
theorem playerOrd_trans (a b c : Player)
    (hab : decide (playerOrd a b) = true) (hbc : decide (playerOrd b c) = true) :
    decide (playerOrd a c) = true := by
  refine decide_eq_true ?_
  rcases of_decide_eq_true hab with h1 | ⟨h1, hf1⟩
  · rcases of_decide_eq_true hbc with h2 | ⟨h2, _⟩
    · exact Or.inl (lt_trans h1 h2)
    · exact Or.inl (h2 ▸ h1)
  · rcases of_decide_eq_true hbc with h2 | ⟨h2, hf2⟩
    · exact Or.inl (h1 ▸ h2)
    · exact Or.inr ⟨h1.trans h2, le_trans hf1 hf2⟩

/-- The nullable start-time comparison is total. -/
theorem startTimeLe_total (x y : Option Int) :
    startTimeLe x y = true ∨ startTimeLe y x = true := by
  cases x <;> cases y <;> simp [startTimeLe]
  omega

/-- The nullable start-time comparison is transitive. -/
theorem startTimeLe_trans (x y z : Option Int)
    (hxy : startTimeLe x y = true) (hyz : startTimeLe y z = true) :
    startTimeLe x z = true := by
  cases x <;> cases y <;> cases z <;> simp [startTimeLe] at *
  omega

/-- The descending start-time comparison of games is total. -/
theorem gameOrd_total (a b : Game) : gameOrd a b = true ∨ gameOrd b a = true :=
  startTimeLe_total b.start_time a.start_time

/-- The descending start-time comparison of games is transitive. -/
theorem gameOrd_trans (a b c : Game)
    (hab : gameOrd a b = true) (hbc : gameOrd b c = true) : gameOrd a c = true :=
  startTimeLe_trans c.start_time b.start_time a.start_time hbc hab

/-! ## The claims -/

/-- C1: for every Game G and every team t, the derived score of t in G
(Game._retrieve_goal_count) equals the number of Goals of G with own_goal=False whose
scorer's GamePlayer.team is t, plus the number of Goals of G with own_goal=True whose
scorer's GamePlayer.team is not t. -/
theorem C1_derived_score_formula (g : Game) (goals : List Goal) (team : Nat) :
    g.retrieve_goal_count goals team
      = ((g.goal_set goals).filter (fun gl => !gl.own_goal && gl.player.team == team)).length
        + ((g.goal_set goals).filter (fun gl => gl.own_goal && !(gl.player.team == team))).length := by
  show ((g.goal_set goals).filter (fun gl => gl.own_goal && !(gl.player.team == team))).length
        + ((g.goal_set goals).filter (fun gl => gl.player.team == team && !gl.own_goal)).length
      = _
  rw [Nat.add_comm]
  have hfil :
      (g.goal_set goals).filter (fun gl => gl.player.team == team && !gl.own_goal)
        = (g.goal_set goals).filter (fun gl => !gl.own_goal && gl.player.team == team) :=
    List.filter_congr (fun x _ => Bool.and_comm _ _)
  rw [hfil]

/-- C2: reading home_score and away_score always returns the value recomputed from the
Goal set and never a stored score value — writes to the Game record, including to the
two shadowed score attributes, leave both reads equal to the recomputation from the
goal log, so score and goal log cannot diverge. -/
theorem C2_score_always_recomputed (g : Game) (goals : List Goal)
    (v w st : Option Int) (sl : String) (c : Nat) :
    g.home_score goals = g.retrieve_goal_count goals g.home_team
    ∧ g.away_score goals = g.retrieve_goal_count goals g.away_team
    ∧ Game.home_score { g with
        home_score_column := v
        away_score_column := w
        start_time := st
        stat_link := sl
        competition := c } goals
      = g.retrieve_goal_count goals g.home_team
    ∧ Game.away_score { g with
        home_score_column := v
        away_score_column := w
        start_time := st
        stat_link := sl
        competition := c } goals
      = g.retrieve_goal_count goals g.away_team :=
  ⟨rfl, rfl, rfl, rfl⟩

/-- C3: applying the Substitution migration's forward step and then its backward step
leaves the in_player and out_player columns targeting Player and keeps every
Substitution row unchanged, whatever the starting schema version was. -/
theorem C3_migration_roundtrip (t : SubstitutionTable) :
    (Migration.backwards (Migration.forwards t)).rows = t.rows
    ∧ (Migration.backwards (Migration.forwards t)).out_player_target = FKTarget.player
    ∧ (Migration.backwards (Migration.forwards t)).in_player_target = FKTarget.player :=
  ⟨rfl, rfl, rfl⟩

/-- C4: formation_str is the dash-joined sequence of per-line player counts taken over
the FormationLines in sort_order, skipping the first line; in particular a Formation
with lines of sizes [1, 4, 3, 3] (goalkeeper line first) yields "4-3-3". -/
theorem C4_formation_str_spec (f : Formation) (lines : List FormationLine)
    (fps : List FormationPlayer) :
    f.formation_str lines fps
      = String.intercalate "-"
          (((f.formationline_set lines).drop 1).map (fun x => toString (x.players_count fps)))
    ∧ exFormation.formation_str exLines exFPs = "4-3-3" := by
  constructor
  · show String.intercalate "-"
        (((f.formationline_set lines).map (fun x => toString (x.players_count fps))).drop 1)
      = _
    rw [List.map_drop]
  · rfl

/-- C5: slug uniqueness is enforced — inserting a Team whose slug equals an existing
Team's slug fails, and inserting a Competition whose slug equals an existing
Competition's slug fails. -/
theorem C5_slug_uniqueness :
    (∀ (db : List Team) (t u : Team), u ∈ db → u.slug = t.slug →
      insertTeam db t = none)
    ∧ (∀ (db : List Competition) (t u : Competition), u ∈ db → u.slug = t.slug →
      insertCompetition db t = none) := by
  constructor
  · intro db t u hu hs
    unfold insertTeam
    rw [if_pos]
    exact List.any_eq_true.mpr ⟨u, hu, by simp [hs]⟩
  · intro db t u hu hs
    unfold insertCompetition
    rw [if_pos]
    exact List.any_eq_true.mpr ⟨u, hu, by simp [hs]⟩

/-- Witness for C5: the concrete duplicate-slug inserts are both rejected. -/
theorem C5_slug_uniqueness_witness :
    insertTeam [exTeamA] exTeamB = none
    ∧ insertCompetition [exCompA] exCompB = none :=
  ⟨C5_slug_uniqueness.1 [exTeamA] exTeamB exTeamA (List.mem_singleton.mpr rfl) rfl,
   C5_slug_uniqueness.2 [exCompA] exCompB exCompA (List.mem_singleton.mpr rfl) rfl⟩

/-- C6: across any sequence of successive updates saved at nondecreasing clock times,
the modified timestamp never decreases, and the created timestamp set at initial
insert never changes. -/
theorem C6_timestamps (e : BaseModel) (ts : List Int)
    (h : List.Chain (fun x y => x ≤ y) e.modified ts) :
    e.modified ≤ (e.saveAll ts).modified ∧ (e.saveAll ts).created = e.created := by
  induction ts generalizing e with
  | nil => exact ⟨le_refl _, rfl⟩
  | cons t rest ih =>
    rcases List.chain_cons.mp h with ⟨hle, hchain⟩
    have hstep := ih (e.save t) (by simpa [BaseModel.save] using hchain)
    exact ⟨le_trans hle hstep.1, hstep.2⟩

/-- Witness for C6: a concrete entity updated at times 1 then 2 keeps its created
stamp and its modified stamp does not decrease. -/
theorem C6_timestamps_witness :
    (BaseModel.mk 0 0).modified ≤ ((BaseModel.mk 0 0).saveAll [1, 2]).modified
    ∧ ((BaseModel.mk 0 0).saveAll [1, 2]).created = (BaseModel.mk 0 0).created :=
  C6_timestamps (BaseModel.mk 0 0) [1, 2]
    (List.Chain.cons (by decide) (List.Chain.cons (by decide) List.Chain.nil))

/-- C7: listing Teams returns them in alphabetical order by name, listing Players
returns them ordered by last name then first name, and listing Games returns them in
descending order of start time. -/
theorem C7_list_orderings (dbT : List Team) (dbP : List Player) (dbG : List Game) :
    (listTeams dbT).Pairwise (fun a b => a.name ≤ b.name)
    ∧ (listPlayers dbP).Pairwise playerOrd
    ∧ (listGames dbG).Pairwise (fun a b => gameOrd a b = true) := by
  refine ⟨?_, ?_, ?_⟩
  · exact (pairwise_sortBy _ teamOrd_total teamOrd_trans dbT).imp
      (fun h => of_decide_eq_true h)
  · exact (pairwise_sortBy _ playerOrd_total playerOrd_trans dbP).imp
      (fun h => of_decide_eq_true h)
  · exact pairwise_sortBy _ gameOrd_total gameOrd_trans dbG

/-- C8 counterexample: a database holding one StatSet for game 1 and team 1 satisfies
at-most-one-per-(game, team); inserting a second StatSet for the same game and team
nevertheless succeeds and the resulting database violates it, so the claimed
invariant is not preserved by every insert. -/
theorem C8_counterexample :
    atMostOnePerTeamPerGame [exStat1]
    ∧ insertStatSet [exStat1] exStat2 = some [exStat1, exStat2]
    ∧ ¬ atMostOnePerTeamPerGame [exStat1, exStat2] := by
  refine ⟨List.pairwise_singleton _ _, rfl, ?_⟩
  intro h
  rcases List.pairwise_cons.mp h with ⟨h1, _⟩
  exact h1 exStat2 (List.mem_singleton.mpr rfl) ⟨rfl, rfl⟩

/-- C8 amended: StatSet declares no uniqueness constraint over (game, team), so an
insert of a StatSet succeeds even when the database already holds a StatSet with the
same game and the same team, and afterwards both rows are present — several StatSets
per team per game can exist. -/
theorem C8_no_statset_uniqueness (db : List StatSet) (s dup : StatSet)
    (hmem : dup ∈ db) (_hg : dup.game = s.game) (_ht : dup.team = s.team) :
    insertStatSet db s = some (db ++ [s])
    ∧ dup ∈ db ++ [s] ∧ s ∈ db ++ [s] :=
  ⟨rfl, List.mem_append_left _ hmem,
   List.mem_append_right _ (List.mem_singleton.mpr rfl)⟩

/-- Witness for the amended C8: the concrete duplicate insert succeeds and both
StatSets for game 1 and team 1 are present afterwards. -/
theorem C8_no_statset_uniqueness_witness :
    insertStatSet [exStat1] exStat2 = some ([exStat1] ++ [exStat2])
    ∧ exStat1 ∈ [exStat1] ++ [exStat2] ∧ exStat2 ∈ [exStat1] ++ [exStat2] :=
  C8_no_statset_uniqueness [exStat1] exStat2 exStat1
    (List.mem_singleton.mpr rfl) rfl rfl

/-- C9: a Goal with own_goal=True whose scorer's team is neither the home team nor
the away team is counted by the own-goal filter of both the home and the away score,
and consequently home_score plus away_score can exceed the total number of Goals of
the game, as the concrete one-goal game shows. -/
theorem C9_neutral_own_goal_double_counted (g : Game) (goals : List Goal) (gl : Goal)
    (hmem : gl ∈ g.goal_set goals) (hog : gl.own_goal = true)
    (hh : gl.player.team ≠ g.home_team) (ha : gl.player.team ≠ g.away_team) :
    (gl ∈ (g.goal_set goals).filter
        (fun x => x.own_goal && !(x.player.team == g.home_team))
      ∧ gl ∈ (g.goal_set goals).filter
        (fun x => x.own_goal && !(x.player.team == g.away_team)))
    ∧ exGame.home_score exGoals + exGame.away_score exGoals
        > (exGame.goal_set exGoals).length := by
  refine ⟨⟨?_, ?_⟩, ?_⟩
  · exact List.mem_filter.mpr ⟨hmem, by simp [hog, hh]⟩
  · exact List.mem_filter.mpr ⟨hmem, by simp [hog, ha]⟩
  · decide

/-- Witness for C9: the concrete neutral own goal of exGoals is counted in both
scores of exGame. -/
theorem C9_neutral_own_goal_witness :
    (exNeutralOwnGoal ∈ (exGame.goal_set exGoals).filter
        (fun x => x.own_goal && !(x.player.team == exGame.home_team))
      ∧ exNeutralOwnGoal ∈ (exGame.goal_set exGoals).filter
        (fun x => x.own_goal && !(x.player.team == exGame.away_team)))
    ∧ exGame.home_score exGoals + exGame.away_score exGoals
        > (exGame.goal_set exGoals).length :=
  C9_neutral_own_goal_double_counted exGame exGoals exNeutralOwnGoal
    (by decide) rfl (by decide) (by decide)

/-- C10: a Formation with fewer than two FormationLines (zero or one line) has the
empty string as its formation_str. -/
theorem C10_short_formation_empty (f : Formation) (lines : List FormationLine)
    (fps : List FormationPlayer)
    (h : (f.formationline_set lines).length ≤ 1) :
    f.formation_str lines fps = "" := by
  unfold Formation.formation_str
  rw [List.drop_eq_nil_of_le (by simpa using h)]
  rfl

/-- Witness for C10: the concrete single-line formation renders as the empty
string. -/
theorem C10_short_formation_empty_witness :
    exFormation.formation_str exOneLine exFPs = "" :=
  C10_short_formation_empty exFormation exOneLine exFPs (by decide)
